import Mathlib

/-!
Verification of the crypto-crowd-risk core (models, calculator, store)
against its specification.  Python floats are modelled as rationals,
Python exceptions as an explicit error type surfaced through `Except`,
and the SQLite table as a list of rows with an auto-increment counter.
-/

namespace CryptoCrowdRisk

/-- The exceptions the modelled code can raise.  The repository defines no
custom exception classes; the code raises Python builtins: `KeyError` from a
missing dict key, `ValueError` from an enum/date constructor, and sqlite3's
`OperationalError` when the medium is unreachable. -/
inductive PyError where
  | keyError (key : String)
  | valueError (msg : String)
  | operationalError (msg : String)
deriving DecidableEq

/-- Round-half-to-even of a rational to an integer, the rounding used by
Python's builtin `round`. -/
def roundHalfEven (x : ℚ) : ℤ :=
  let n : ℤ := Int.floor x
  let r : ℚ := x - n
  if r < 1/2 then n
  else if 1/2 < r then n + 1
  else if n % 2 = 0 then n else n + 1

/-- Python's `round(x, 2)`: round to 2 decimal places, half to even. -/
def pyRound2 (x : ℚ) : ℚ := (roundHalfEven (x * 100) : ℚ) / 100

/-- Model of `class RiskLevel(Enum)` from models.py. -/
inductive RiskLevel where
  | LOW
  | MEDIUM
  | HIGH
  | CRITICAL
deriving DecidableEq

/-- The `.value` string of each `RiskLevel` member. -/
def RiskLevel.value : RiskLevel → String
  | .LOW => "low"
  | .MEDIUM => "medium"
  | .HIGH => "high"
  | .CRITICAL => "critical"

/-- Python's `RiskLevel(s)` value lookup: the member whose value is `s`,
if any (the constructor raises `ValueError` when this is `none`). -/
def RiskLevel.fromValue (s : String) : Option RiskLevel :=
  if s = "low" then some .LOW
  else if s = "medium" then some .MEDIUM
  else if s = "high" then some .HIGH
  else if s = "critical" then some .CRITICAL
  else none

/-- Model of `class CrowdSentiment(Enum)` from models.py. -/
inductive CrowdSentiment where
  | BULLISH
  | NEUTRAL
  | BEARISH
deriving DecidableEq

/-- The `.value` string of each `CrowdSentiment` member. -/
def CrowdSentiment.value : CrowdSentiment → String
  | .BULLISH => "bullish"
  | .NEUTRAL => "neutral"
  | .BEARISH => "bearish"

/-- Python's `CrowdSentiment(s)` value lookup. -/
def CrowdSentiment.fromValue (s : String) : Option CrowdSentiment :=
  if s = "bullish" then some .BULLISH
  else if s = "neutral" then some .NEUTRAL
  else if s = "bearish" then some .BEARISH
  else none

/-- Python's leap-year rule (`calendar.isleap`), as used by `datetime.date`. -/
def isLeapYear (y : Nat) : Bool :=
  y % 4 = 0 && (y % 100 ≠ 0 || y % 400 = 0)

/-- Days in a month of the proleptic Gregorian calendar, as `datetime.date`
validates them. -/
def daysInMonth (y m : Nat) : Nat :=
  if m = 2 then (if isLeapYear y then 29 else 28)
  else if m = 4 ∨ m = 6 ∨ m = 9 ∨ m = 11 then 30
  else 31

/-- A `datetime.date` value (year, month, day). -/
structure PyDate where
  year : Nat
  month : Nat
  day : Nat
deriving DecidableEq

/-- The invariant `datetime.date` enforces at construction:
`MINYEAR = 1 <= year <= MAXYEAR = 9999` and a real calendar day. -/
def PyDate.valid (d : PyDate) : Bool :=
  1 ≤ d.year && d.year ≤ 9999 && 1 ≤ d.month && d.month ≤ 12 &&
  1 ≤ d.day && d.day ≤ daysInMonth d.year d.month

/-- The ASCII digit character for `n % 10`. -/
def digitChar (n : Nat) : Char := Char.ofNat (48 + n % 10)

/-- Python `%02d` formatting of a number below 100. -/
def pad2 (n : Nat) : String := String.mk [digitChar (n / 10), digitChar n]

/-- Python `%04d` formatting of a number below 10000. -/
def pad4 (n : Nat) : String :=
  String.mk [digitChar (n / 1000), digitChar (n / 100), digitChar (n / 10), digitChar n]

/-- Python `date.isoformat()`: the `YYYY-MM-DD` string. -/
def PyDate.isoformat (d : PyDate) : String :=
  pad4 d.year ++ "-" ++ pad2 d.month ++ "-" ++ pad2 d.day

/-- Numeric value of one ASCII digit character. -/
def parseDigit (c : Char) : Option Nat :=
  if c.isDigit then some (c.toNat - 48) else none

/-- Numeric value of two digit characters. -/
def parse2 (a b : Char) : Option Nat := do
  let x ← parseDigit a
  let y ← parseDigit b
  pure (x * 10 + y)

/-- Numeric value of four digit characters. -/
def parse4 (a b c d : Char) : Option Nat := do
  let x ← parseDigit a
  let y ← parseDigit b
  let z ← parseDigit c
  let w ← parseDigit d
  pure (x * 1000 + y * 100 + z * 10 + w)

/-- Parse a canonical `YYYY-MM-DD` string into a valid calendar date. -/
def date_parse (s : String) : Option PyDate :=
  match s.data with
  | [y1, y2, y3, y4, h1, m1, m2, h2, d1, d2] =>
    if h1 = '-' ∧ h2 = '-' then
      match parse4 y1 y2 y3 y4, parse2 m1 m2, parse2 d1 d2 with
      | some y, some m, some d =>
        if 1 ≤ y ∧ y ≤ 9999 ∧ 1 ≤ m ∧ m ≤ 12 ∧ 1 ≤ d ∧ d ≤ daysInMonth y m then
          some ⟨y, m, d⟩
        else none
      | _, _, _ => none
    else none
  | _ => none

/-- Python `date.fromisoformat`: parse a canonical `YYYY-MM-DD` string and validate
it as a calendar date; raises `ValueError` otherwise. -/
def date_fromisoformat (s : String) : Except PyError PyDate :=
  match date_parse s with
  | some d => .ok d
  | none => .error (.valueError ("Invalid isoformat string: " ++ s))

/-- Model of `@dataclass CryptoRiskEntry` from models.py, with its field defaults. -/
structure CryptoRiskEntry where
  cryptocurrency : String
  risk_level : RiskLevel
  reporter : String
  report_date : PyDate
  description : String := ""
  market_cap : ℚ := 0
  volatility_index : ℚ := 0
  crowd_sentiment : Option CrowdSentiment := none
  risk_score : ℚ := 0
  entry_id : Option Int := none
deriving DecidableEq

/-- Model of `RiskCalculator.RISK_LEVEL_SCORES` from calculator.py. -/
def RISK_LEVEL_SCORES : RiskLevel → ℚ
  | .LOW => 20
  | .MEDIUM => 45
  | .HIGH => 70
  | .CRITICAL => 90

/-- Model of `RiskCalculator.SENTIMENT_FACTORS` from calculator.py. -/
def SENTIMENT_FACTORS : CrowdSentiment → ℚ
  | .BULLISH => -10
  | .NEUTRAL => 0
  | .BEARISH => 10

/-- Model of `RiskCalculator.calculate_risk_score` from calculator.py.  The
`if entry.crowd_sentiment:` truthiness test is the `Option` match (enum
members are truthy). -/
def calculate_risk_score (entry : CryptoRiskEntry) : ℚ :=
  let base_score := RISK_LEVEL_SCORES entry.risk_level
  let volatility_factor := min entry.volatility_index 30
  let sentiment_factor : ℚ :=
    match entry.crowd_sentiment with
    | some s => SENTIMENT_FACTORS s
    | none => 0
  let risk_score := base_score + volatility_factor + sentiment_factor
  let clamped := max 0 (min 100 risk_score)
  pyRound2 clamped

/-- Model of `RiskCalculator.calculate_average_risk` from calculator.py. -/
def calculate_average_risk (entries : List CryptoRiskEntry) : ℚ :=
  if entries.isEmpty then 0
  else pyRound2 ((entries.map fun e => e.risk_score).sum / (entries.length : ℚ))

/-- The base-score table as the specification states it (spec side of the
refinement for C1). -/
def spec_base_score : RiskLevel → ℚ
  | .LOW => 20
  | .MEDIUM => 45
  | .HIGH => 70
  | .CRITICAL => 90

/-- The sentiment contribution as the specification states it, absent
sentiment contributing 0 (spec side of the refinement for C1). -/
def spec_sentiment_contribution : Option CrowdSentiment → ℚ
  | some .BULLISH => -10
  | some .NEUTRAL => 0
  | some .BEARISH => 10
  | none => 0

/-- Plain key-value representation of an entry (the Python `dict` passed
between `to_dict` and `from_dict`).  `none` on an outer `Option` means the
key is absent; the nested `Option` on `entry_id` and `crowd_sentiment`
distinguishes a present key holding `None` from an absent key, exactly the
states `to_dict` can emit. -/
structure EntryDict where
  entry_id : Option (Option Int) := none
  cryptocurrency : Option String := none
  risk_level : Option String := none
  reporter : Option String := none
  report_date : Option String := none
  description : Option String := none
  market_cap : Option ℚ := none
  volatility_index : Option ℚ := none
  crowd_sentiment : Option (Option String) := none
  risk_score : Option ℚ := none
deriving DecidableEq

/-- Model of `CryptoRiskEntry.to_dict` from models.py. -/
def to_dict (e : CryptoRiskEntry) : EntryDict :=
  { entry_id := some e.entry_id,
    cryptocurrency := some e.cryptocurrency,
    risk_level := some e.risk_level.value,
    reporter := some e.reporter,
    report_date := some e.report_date.isoformat,
    description := some e.description,
    market_cap := some e.market_cap,
    volatility_index := some e.volatility_index,
    crowd_sentiment := some (e.crowd_sentiment.map CrowdSentiment.value),
    risk_score := some e.risk_score }

/-- The `CrowdSentiment(data["crowd_sentiment"]) if data.get("crowd_sentiment")
else None` expression: Python truthiness makes a missing key, a null value
and an empty string all fall back to `None`; any other unrecognised string
raises `ValueError`. -/
def parse_sentiment_field (v : Option String) : Except PyError (Option CrowdSentiment) :=
  match v with
  | none => .ok none
  | some s =>
    if s = "" then .ok none
    else
      match CrowdSentiment.fromValue s with
      | some c => .ok (some c)
      | none => .error (.valueError (s ++ " is not a valid CrowdSentiment"))

/-- Model of `CryptoRiskEntry.from_dict` from models.py.  Fields are evaluated in
the source's textual argument order, so the first failing field determines
the raised exception.  `data.get(k)` on the doubly-optional keys is
`Option.join`. -/
def from_dict (data : EntryDict) : Except PyError CryptoRiskEntry :=
  match data.cryptocurrency with
  | none => .error (.keyError "cryptocurrency")
  | some crypto =>
    match data.risk_level with
    | none => .error (.keyError "risk_level")
    | some rlStr =>
      match RiskLevel.fromValue rlStr with
      | none => .error (.valueError (rlStr ++ " is not a valid RiskLevel"))
      | some rl =>
        match data.reporter with
        | none => .error (.keyError "reporter")
        | some rep =>
          match data.report_date with
          | none => .error (.keyError "report_date")
          | some rdStr =>
            match date_fromisoformat rdStr with
            | .error err => .error err
            | .ok rd =>
              match parse_sentiment_field data.crowd_sentiment.join with
              | .error err => .error err
              | .ok cs =>
                .ok { entry_id := data.entry_id.join,
                      cryptocurrency := crypto,
                      risk_level := rl,
                      reporter := rep,
                      report_date := rd,
                      description := data.description.getD "",
                      market_cap := data.market_cap.getD 0,
                      volatility_index := data.volatility_index.getD 0,
                      crowd_sentiment := cs,
                      risk_score := data.risk_score.getD 0 }

theorem le_roundHalfEven (a : ℤ) (x : ℚ) (h : (a : ℚ) ≤ x) : a ≤ roundHalfEven x := by
  have hfloor : a ≤ Int.floor x := Int.le_floor.mpr h
  unfold roundHalfEven
  dsimp only
  split_ifs <;> omega

theorem roundHalfEven_le (b : ℤ) (x : ℚ) (h : x ≤ b) : roundHalfEven x ≤ b := by
  have hfloor : Int.floor x ≤ b := by
    have := Int.floor_le_floor h
    simpa using this
  have hlt : (1:ℚ)/2 ≤ x - Int.floor x → Int.floor x < b := by
    intro hr
    have hx : (Int.floor x : ℚ) < x := by linarith
    have : (Int.floor x : ℚ) < (b : ℚ) := lt_of_lt_of_le hx h
    exact_mod_cast this
  unfold roundHalfEven
  dsimp only
  split_ifs with h1 h2 h3
  · exact hfloor
  · have := hlt (not_lt.mp h1)
    omega
  · exact hfloor
  · have := hlt (not_lt.mp h1)
    omega

theorem pyRound2_nonneg (x : ℚ) (h : 0 ≤ x) : 0 ≤ pyRound2 x := by
  unfold pyRound2
  have : (0:ℤ) ≤ roundHalfEven (x * 100) := le_roundHalfEven 0 _ (by push_cast; linarith)
  have h2 : (0:ℚ) ≤ (roundHalfEven (x * 100) : ℚ) := by exact_mod_cast this
  positivity

theorem pyRound2_le_100 (x : ℚ) (h : x ≤ 100) : pyRound2 x ≤ 100 := by
  unfold pyRound2
  have : roundHalfEven (x * 100) ≤ 10000 := roundHalfEven_le 10000 _ (by push_cast; linarith)
  have h2 : (roundHalfEven (x * 100) : ℚ) ≤ 10000 := by exact_mod_cast this
  rw [div_le_iff₀ (by norm_num : (0:ℚ) < 100)]
  linarith

/-- The computed score written in the specification's formula shape. -/
theorem calculate_risk_score_spec_form (e : CryptoRiskEntry) :
    calculate_risk_score e =
      pyRound2 (max 0 (min 100 (spec_base_score e.risk_level +
        min e.volatility_index 30 + spec_sentiment_contribution e.crowd_sentiment))) := by
  have hb : RISK_LEVEL_SCORES e.risk_level = spec_base_score e.risk_level := by
    cases e.risk_level <;> rfl
  have hs : (match e.crowd_sentiment with
      | some s => SENTIMENT_FACTORS s
      | none => (0:ℚ)) = spec_sentiment_contribution e.crowd_sentiment := by
    rcases e.crowd_sentiment with _ | s
    · rfl
    · cases s <;> rfl
  simp only [calculate_risk_score, hb, hs]

theorem calculate_risk_score_nonneg (e : CryptoRiskEntry) : 0 ≤ calculate_risk_score e := by
  rw [calculate_risk_score_spec_form]
  exact pyRound2_nonneg _ (le_max_left _ _)

theorem calculate_risk_score_le_100 (e : CryptoRiskEntry) : calculate_risk_score e ≤ 100 := by
  rw [calculate_risk_score_spec_form]
  exact pyRound2_le_100 _ (max_le (by norm_num) (min_le_left _ _))

/-- C1: for every entry, `calculate_risk_score` is the fixed base score
(LOW=20, MEDIUM=45, HIGH=70, CRITICAL=90) plus `min(volatility_index, 30)`
plus the sentiment contribution (BULLISH=-10, NEUTRAL=0, BEARISH=+10,
absent=0), clamped to [0, 100] and rounded to 2 decimal places; in
particular the result always lies in [0, 100]. -/
theorem C1_risk_score_formula_and_range (e : CryptoRiskEntry) :
    calculate_risk_score e =
      pyRound2 (max 0 (min 100 (spec_base_score e.risk_level +
        min e.volatility_index 30 + spec_sentiment_contribution e.crowd_sentiment)))
    ∧ 0 ≤ calculate_risk_score e ∧ calculate_risk_score e ≤ 100 :=
  ⟨calculate_risk_score_spec_form e, calculate_risk_score_nonneg e,
    calculate_risk_score_le_100 e⟩

theorem parseDigit_digitChar (x : Nat) : parseDigit (digitChar x) = some (x % 10) := by
  have hd : digitChar x = digitChar (x % 10) := by
    unfold digitChar
    congr 1
    omega
  rw [hd]
  have h : x % 10 < 10 := Nat.mod_lt _ (by norm_num)
  set y := x % 10 with hy
  interval_cases y <;> decide

theorem parse2_digits (n : Nat) (h : n < 100) :
    parse2 (digitChar (n / 10)) (digitChar n) = some n := by
  simp only [parse2, parseDigit_digitChar, Option.bind_eq_bind, Option.some_bind,
    Option.pure_def, Option.some.injEq]
  omega

theorem parse4_digits (n : Nat) (h : n < 10000) :
    parse4 (digitChar (n / 1000)) (digitChar (n / 100)) (digitChar (n / 10)) (digitChar n)
      = some n := by
  simp only [parse4, parseDigit_digitChar, Option.bind_eq_bind, Option.some_bind,
    Option.pure_def, Option.some.injEq]
  omega

theorem daysInMonth_le (y m : Nat) : daysInMonth y m ≤ 31 := by
  unfold daysInMonth
  split_ifs <;> norm_num

theorem isoformat_data (d : PyDate) :
    (PyDate.isoformat d).data =
      [digitChar (d.year / 1000), digitChar (d.year / 100), digitChar (d.year / 10),
       digitChar d.year, '-', digitChar (d.month / 10), digitChar d.month, '-',
       digitChar (d.day / 10), digitChar d.day] := by
  simp [PyDate.isoformat, pad4, pad2, String.data_append]

theorem date_parse_isoformat (d : PyDate) (h : d.valid = true) :
    date_parse (PyDate.isoformat d) = some d := by
  obtain ⟨y, m, dd⟩ := d
  simp only [PyDate.valid, Bool.and_eq_true, decide_eq_true_eq] at h
  obtain ⟨⟨⟨⟨⟨hy1, hy2⟩, hm1⟩, hm2⟩, hd1⟩, hd2⟩ := h
  have hdd : dd < 100 := by
    have := daysInMonth_le y m
    omega
  unfold date_parse
  rw [isoformat_data]
  simp only [parse4_digits y (by omega), parse2_digits m (by omega), parse2_digits dd hdd]
  split_ifs with h1 h2
  · rfl
  · exact absurd ⟨hy1, hy2, hm1, hm2, hd1, hd2⟩ h2
  · simp at h1

/-- Parsing a validly constructed date's `isoformat` output recovers the
date: the round trip through the ISO-8601 string is the identity. -/
theorem date_fromisoformat_isoformat (d : PyDate) (h : d.valid = true) :
    date_fromisoformat (PyDate.isoformat d) = .ok d := by
  unfold date_fromisoformat
  rw [date_parse_isoformat d h]

/-- Every failure of the date parser is a `ValueError`. -/
theorem date_fromisoformat_error (s : String) (err : PyError)
    (h : date_fromisoformat s = .error err) : ∃ msg, err = .valueError msg := by
  unfold date_fromisoformat at h
  rcases hp : date_parse s with _ | d <;> rw [hp] at h
  · exact ⟨_, (Except.error.inj h).symm⟩
  · simp at h

theorem riskLevel_fromValue_value (rl : RiskLevel) : RiskLevel.fromValue rl.value = some rl := by
  cases rl <;> decide

theorem crowdSentiment_fromValue_value (c : CrowdSentiment) :
    CrowdSentiment.fromValue c.value = some c := by
  cases c <;> decide

theorem CrowdSentiment.value_ne_empty (c : CrowdSentiment) : c.value ≠ "" := by
  cases c <;> decide

/-- C3: for every valid entry, including one with absent sentiment,
`from_dict (to_dict e)` reproduces `e` field-for-field, and the
intermediate dict holds the enum's canonical lowercase value string and
the ISO-8601 date string. -/
theorem C3_dict_round_trip (e : CryptoRiskEntry) (h : e.report_date.valid = true) :
    from_dict (to_dict e) = .ok e
    ∧ (to_dict e).risk_level = some e.risk_level.value
    ∧ (to_dict e).crowd_sentiment = some (e.crowd_sentiment.map CrowdSentiment.value)
    ∧ (to_dict e).report_date = some e.report_date.isoformat := by
  refine ⟨?_, rfl, rfl, rfl⟩
  have hsent : parse_sentiment_field ((to_dict e).crowd_sentiment.join) = .ok e.crowd_sentiment := by
    rcases hc : e.crowd_sentiment with _ | c
    · simp [to_dict, parse_sentiment_field, hc]
    · simp [to_dict, parse_sentiment_field, hc, CrowdSentiment.value_ne_empty c,
        crowdSentiment_fromValue_value]
  simp only [from_dict, to_dict, Option.getD_some, riskLevel_fromValue_value,
    date_fromisoformat_isoformat e.report_date h]
  simp only [to_dict] at hsent
  simp only [hsent]
  rfl

/-- C4: `calculate_average_risk` is 0 on the empty collection, and on a
non-empty collection it is the mean of the stored `risk_score` fields
rounded to 2 decimal places; stored scores [20, 71, 48] average to 46.33. -/
theorem C4_average_risk :
    calculate_average_risk [] = 0
    ∧ (∀ entries : List CryptoRiskEntry, entries ≠ [] →
        calculate_average_risk entries =
          pyRound2 ((entries.map fun e => e.risk_score).sum / (entries.length : ℚ)))
    ∧ (∀ e1 e2 e3 : CryptoRiskEntry, e1.risk_score = 20 → e2.risk_score = 71 → e3.risk_score = 48 →
        calculate_average_risk [e1, e2, e3] = 4633 / 100) := by
  have hne : ∀ entries : List CryptoRiskEntry, entries ≠ [] →
      calculate_average_risk entries =
        pyRound2 ((entries.map fun e => e.risk_score).sum / (entries.length : ℚ)) := by
    intro entries h
    rw [calculate_average_risk, if_neg]
    simp [h]
  refine ⟨rfl, hne, ?_⟩
  intro e1 e2 e3 h1 h2 h3
  rw [hne _ (by simp)]
  simp only [List.map_cons, List.map_nil, List.sum_cons, List.sum_nil, List.length_cons,
    List.length_nil, h1, h2, h3]
  norm_num [pyRound2, roundHalfEven]

theorem C4_average_risk_witness :
    calculate_average_risk
      [{ cryptocurrency := "A", risk_level := RiskLevel.LOW, reporter := "r",
         report_date := ⟨2024, 1, 1⟩, risk_score := 20 },
       { cryptocurrency := "B", risk_level := RiskLevel.HIGH, reporter := "r",
         report_date := ⟨2024, 1, 2⟩, risk_score := 71 },
       { cryptocurrency := "C", risk_level := RiskLevel.MEDIUM, reporter := "r",
         report_date := ⟨2024, 1, 3⟩, risk_score := 48 }] = 4633 / 100 :=
  C4_average_risk.2.2 _ _ _ rfl rfl rfl

/-- C10: `min(volatility_index, 30)` has no lower bound, so a negative
volatility index enters the sum as-is and can pull the score below the
risk level's base score; the clamp to [0, 100] still applies. -/
theorem C10_negative_volatility :
    (∀ e : CryptoRiskEntry, e.volatility_index < 0 →
        calculate_risk_score e =
          pyRound2 (max 0 (min 100 (spec_base_score e.risk_level + e.volatility_index +
            spec_sentiment_contribution e.crowd_sentiment)))
        ∧ 0 ≤ calculate_risk_score e ∧ calculate_risk_score e ≤ 100)
    ∧ (∃ e : CryptoRiskEntry, e.volatility_index < 0 ∧
        calculate_risk_score e < spec_base_score e.risk_level) := by
  constructor
  · intro e hneg
    refine ⟨?_, calculate_risk_score_nonneg e, calculate_risk_score_le_100 e⟩
    rw [calculate_risk_score_spec_form]
    rw [min_eq_left (le_trans hneg.le (by norm_num))]
  · refine ⟨{ cryptocurrency := "BTC", risk_level := .LOW, reporter := "r",
              report_date := ⟨2024, 1, 1⟩, volatility_index := -15 }, by norm_num, ?_⟩
    rw [calculate_risk_score_spec_form]
    norm_num [spec_base_score, spec_sentiment_contribution, pyRound2, roundHalfEven]

theorem C10_negative_volatility_witness :
    0 ≤ calculate_risk_score { cryptocurrency := "BTC", risk_level := RiskLevel.LOW,
                               reporter := "r", report_date := ⟨2024, 1, 1⟩,
                               volatility_index := -15 } :=
  (C10_negative_volatility.1 _ (by norm_num)).2.1

theorem C3_dict_round_trip_witness :
    from_dict (to_dict { cryptocurrency := "Dogecoin", risk_level := RiskLevel.CRITICAL,
                         reporter := "Anonymous", report_date := ⟨2024, 3, 5⟩ }) =
      .ok { cryptocurrency := "Dogecoin", risk_level := RiskLevel.CRITICAL,
            reporter := "Anonymous", report_date := ⟨2024, 3, 5⟩ } :=
  (C3_dict_round_trip _ (by decide)).1

/-- C5 (amended): `from_dict` fails whenever a required field is missing
or a supplied `risk_level` or non-empty `crowd_sentiment` value is outside
the closed set — but with Python's builtin exceptions, `KeyError` for the
first missing required field and `ValueError` for a bad enumeration value
(or unparseable date), as the repository defines no `ValidationError` —
and a falsy (empty-string) sentiment value is silently treated as absent
rather than rejected; absent optional fields take the data model's
defaults. -/
theorem C5_from_dict_validation (d : EntryDict) :
    (d.cryptocurrency = none → from_dict d = .error (.keyError "cryptocurrency"))
    ∧ (∀ c, d.cryptocurrency = some c → d.risk_level = none →
        from_dict d = .error (.keyError "risk_level"))
    ∧ (∀ c s, d.cryptocurrency = some c → d.risk_level = some s →
        RiskLevel.fromValue s = none → ∃ msg, from_dict d = .error (.valueError msg))
    ∧ (∀ c s rl, d.cryptocurrency = some c → d.risk_level = some s →
        RiskLevel.fromValue s = some rl → d.reporter = none →
        from_dict d = .error (.keyError "reporter"))
    ∧ (∀ c s rl rep, d.cryptocurrency = some c → d.risk_level = some s →
        RiskLevel.fromValue s = some rl → d.reporter = some rep → d.report_date = none →
        from_dict d = .error (.keyError "report_date"))
    ∧ (∀ c s rl rep ds err, d.cryptocurrency = some c → d.risk_level = some s →
        RiskLevel.fromValue s = some rl → d.reporter = some rep → d.report_date = some ds →
        date_fromisoformat ds = .error err →
        ∃ msg, from_dict d = .error (.valueError msg))
    ∧ (∀ c s rl rep ds sv, d.cryptocurrency = some c → d.risk_level = some s →
        RiskLevel.fromValue s = some rl → d.reporter = some rep → d.report_date = some ds →
        d.crowd_sentiment.join = some sv → sv ≠ "" →
        CrowdSentiment.fromValue sv = none → ∃ msg, from_dict d = .error (.valueError msg))
    ∧ ((d.cryptocurrency = none ∨ d.risk_level = none ∨
        (∃ s, d.risk_level = some s ∧ RiskLevel.fromValue s = none) ∨
        d.reporter = none ∨ d.report_date = none ∨
        (∃ sv, d.crowd_sentiment.join = some sv ∧ sv ≠ "" ∧
          CrowdSentiment.fromValue sv = none)) →
        ∃ err, from_dict d = .error err)
    ∧ (∀ c s rl rep ds rd, d.cryptocurrency = some c → d.risk_level = some s →
        RiskLevel.fromValue s = some rl → d.reporter = some rep → d.report_date = some ds →
        date_fromisoformat ds = .ok rd →
        d.description = none → d.market_cap = none → d.volatility_index = none →
        d.crowd_sentiment = none → d.risk_score = none → d.entry_id = none →
        from_dict d = .ok { cryptocurrency := c, risk_level := rl, reporter := rep,
                            report_date := rd }) := by
  refine ⟨?_, ?_, ?_, ?_, ?_, ?_, ?_, ?_, ?_⟩
  · intro h1
    simp [from_dict, h1]
  · intro c h1 h2
    simp [from_dict, h1, h2]
  · intro c s h1 h2 h3
    exact ⟨s ++ " is not a valid RiskLevel", by simp [from_dict, h1, h2, h3]⟩
  · intro c s rl h1 h2 h3 h4
    simp [from_dict, h1, h2, h3, h4]
  · intro c s rl rep h1 h2 h3 h4 h5
    simp [from_dict, h1, h2, h3, h4, h5]
  · intro c s rl rep ds err h1 h2 h3 h4 h5 h6
    obtain ⟨msg, hmsg⟩ := date_fromisoformat_error _ _ h6
    exact ⟨msg, by simp [from_dict, h1, h2, h3, h4, h5, h6, hmsg]⟩
  · intro c s rl rep ds sv h1 h2 h3 h4 h5 h6 h7 h8
    have h6' : d.crowd_sentiment.bind (fun a => a) = some sv := h6
    rcases hdp : date_fromisoformat ds with derr | rd
    · obtain ⟨msg, hmsg⟩ := date_fromisoformat_error _ _ hdp
      exact ⟨msg, by simp [from_dict, h1, h2, h3, h4, h5, hdp, hmsg]⟩
    · exact ⟨sv ++ " is not a valid CrowdSentiment",
        by simp [from_dict, h1, h2, h3, h4, h5, hdp, h6', h7, h8, parse_sentiment_field]⟩
  · intro hcase
    rcases hc : d.cryptocurrency with _ | c
    · exact ⟨.keyError "cryptocurrency", by simp [from_dict, hc]⟩
    rcases hrlf : d.risk_level with _ | s
    · exact ⟨.keyError "risk_level", by simp [from_dict, hc, hrlf]⟩
    rcases hrv : RiskLevel.fromValue s with _ | rl
    · exact ⟨.valueError (s ++ " is not a valid RiskLevel"),
        by simp [from_dict, hc, hrlf, hrv]⟩
    rcases hrep : d.reporter with _ | rep
    · exact ⟨.keyError "reporter", by simp [from_dict, hc, hrlf, hrv, hrep]⟩
    rcases hrd : d.report_date with _ | ds
    · exact ⟨.keyError "report_date", by simp [from_dict, hc, hrlf, hrv, hrep, hrd]⟩
    rcases hdp : date_fromisoformat ds with derr | rd
    · exact ⟨derr, by simp [from_dict, hc, hrlf, hrv, hrep, hrd, hdp]⟩
    rcases hcase with h | h | ⟨s', hs', hbadlvl⟩ | h | h | ⟨sv, hsv, hne, hbadv⟩
    · simp [hc] at h
    · simp [hrlf] at h
    · rw [hrlf] at hs'
      obtain rfl := Option.some.inj hs'
      rw [hbadlvl] at hrv
      cases hrv
    · simp [hrep] at h
    · simp [hrd] at h
    · have hsv' : d.crowd_sentiment.bind (fun a => a) = some sv := hsv
      exact ⟨.valueError (sv ++ " is not a valid CrowdSentiment"),
        by simp [from_dict, hc, hrlf, hrv, hrep, hrd, hdp, hsv', hne, hbadv,
          parse_sentiment_field]⟩
  · intro c s rl rep ds rd h1 h2 h3 h4 h5 h6 h7 h8 h9 h10 h11 h12
    simp [from_dict, h1, h2, h3, h4, h5, h6, h7, h8, h9, h10, h11, h12, parse_sentiment_field,
      Option.join]

theorem C5_from_dict_validation_witness :
    from_dict {} = .error (.keyError "cryptocurrency") :=
  (C5_from_dict_validation {}).1 rfl

/-- A dict whose `crowd_sentiment` value is the empty string — a value
outside the closed enumeration set — on which C5 as stated requires
`from_dict` to fail: it succeeds instead, coercing the falsy value to an
absent sentiment. -/
theorem C5_counterexample_empty_sentiment_accepted :
    from_dict { cryptocurrency := some "Bitcoin", risk_level := some "low",
                reporter := some "r", report_date := some "2024-01-15",
                crowd_sentiment := some (some "") } =
      .ok { cryptocurrency := "Bitcoin", risk_level := RiskLevel.LOW, reporter := "r",
            report_date := ⟨2024, 1, 15⟩ } := by
  rfl

/-- One persisted row of the `crypto_risk_entries` SQLite table, columns in
schema order.  `NOT NULL` columns are plain values; nullable columns are
`Option`s. -/
structure Row where
  entry_id : Int
  cryptocurrency : String
  risk_level : String
  reporter : String
  report_date : String
  description : Option String
  market_cap : Option ℚ
  volatility_index : Option ℚ
  crowd_sentiment : Option String
  risk_score : Option ℚ
deriving DecidableEq

/-- The database state: the stored rows plus SQLite's AUTOINCREMENT
counter, i.e. the next id to assign (1 on a fresh database). -/
structure DBState where
  rows : List Row
  nextId : Int
deriving DecidableEq

/-- A freshly created database: no rows, next id 1. -/
def emptyDB : DBState := ⟨[], 1⟩

/-- Python's `x or default` over a nullable string column: both `None` and
the empty string are falsy. -/
def pyOrStr (v : Option String) (dflt : String) : String :=
  match v with
  | none => dflt
  | some s => if s = "" then dflt else s

/-- Python's `x or default` over a nullable numeric column: both `None` and
0.0 are falsy. -/
def pyOrRat (v : Option ℚ) (dflt : ℚ) : ℚ :=
  match v with
  | none => dflt
  | some q => if q = 0 then dflt else q

/-- Model of `Database._row_to_entry` from database.py, with the constructor's
argument evaluation order: the `RiskLevel` lookup, then the date parse,
then the sentiment lookup can raise `ValueError`. -/
def row_to_entry (r : Row) : Except PyError CryptoRiskEntry :=
  match RiskLevel.fromValue r.risk_level with
  | none => .error (.valueError (r.risk_level ++ " is not a valid RiskLevel"))
  | some rl =>
    match date_fromisoformat r.report_date with
    | .error err => .error err
    | .ok rd =>
      match parse_sentiment_field r.crowd_sentiment with
      | .error err => .error err
      | .ok cs =>
        .ok { entry_id := some r.entry_id,
              cryptocurrency := r.cryptocurrency,
              risk_level := rl,
              reporter := r.reporter,
              report_date := rd,
              description := pyOrStr r.description "",
              market_cap := pyOrRat r.market_cap 0,
              volatility_index := pyOrRat r.volatility_index 0,
              crowd_sentiment := cs,
              risk_score := pyOrRat r.risk_score 0 }

/-- The tuple bound into `add_entry`'s INSERT statement, as the row it
creates under a given assigned id. -/
def entry_row (entry_id : Int) (e : CryptoRiskEntry) : Row :=
  { entry_id := entry_id,
    cryptocurrency := e.cryptocurrency,
    risk_level := e.risk_level.value,
    reporter := e.reporter,
    report_date := e.report_date.isoformat,
    description := some e.description,
    market_cap := some e.market_cap,
    volatility_index := some e.volatility_index,
    crowd_sentiment := e.crowd_sentiment.map CrowdSentiment.value,
    risk_score := some e.risk_score }

/-- The fault, if any, the storage medium injects into `add_entry`:
`connectFail` is `sqlite3.connect` raising because the medium is
unreachable (nothing has been written yet); `commitFail` is the INSERT's
execute/commit inside the `with` block raising (the write cannot be
committed), whereupon the connection context manager rolls the
transaction back, so no row — and no partial row — becomes visible in
either case. -/
inductive StorageFault where
  | ok
  | connectFail
  | commitFail
deriving DecidableEq

/-- Model of `Database.add_entry` from database.py.  The computed score is
written onto the caller's entry before any connection is opened, so every
fault path still returns the mutated entry; a fault surfaces as sqlite3's
own `OperationalError` (uncaught by the code) and leaves the database
state unchanged — on `commitFail` because the `with sqlite3.connect(...)`
context manager rolls the open transaction back.  Returns the outcome
(new database state and `cursor.lastrowid`) paired with the caller's
entry as the call leaves it. -/
def add_entry (fault : StorageFault) (db : DBState) (entry : CryptoRiskEntry) :
    Except PyError (DBState × Int) × CryptoRiskEntry :=
  let entry' := { entry with risk_score := calculate_risk_score entry }
  match fault with
  | .ok =>
    (.ok (⟨db.rows ++ [entry_row db.nextId entry'], db.nextId + 1⟩, db.nextId), entry')
  | .connectFail =>
    (.error (.operationalError "unable to open database file"), entry')
  | .commitFail =>
    (.error (.operationalError "disk I/O error"), entry')

/-- Model of `Database.get_entry` from database.py: point lookup by id. -/
def get_entry (db : DBState) (entry_id : Int) : Except PyError (Option CryptoRiskEntry) :=
  match db.rows.find? (fun r => r.entry_id == entry_id) with
  | some r =>
    match row_to_entry r with
    | .ok e => .ok (some e)
    | .error err => .error err
  | none => .ok none

/-- Invariant of every reachable database state: the AUTOINCREMENT counter
is at least 1 and strictly above every stored id. -/
def DBState.wf (db : DBState) : Prop :=
  1 ≤ db.nextId ∧ ∀ r ∈ db.rows, r.entry_id < db.nextId

theorem emptyDB_wf : emptyDB.wf :=
  ⟨le_refl 1, by simp [emptyDB]⟩

theorem add_entry_preserves_wf (db : DBState) (e : CryptoRiskEntry) (h : db.wf) :
    ∀ db' i, (add_entry .ok db e).1 = .ok (db', i) → db'.wf := by
  intro db' i hadd
  simp only [add_entry, Except.ok.injEq, Prod.mk.injEq] at hadd
  obtain ⟨hdb, _⟩ := hadd
  subst hdb
  constructor
  · show 1 ≤ db.nextId + 1
    have := h.1
    omega
  · intro r hr
    show r.entry_id < db.nextId + 1
    have hr' : r ∈ db.rows ++ [entry_row db.nextId
        { e with risk_score := calculate_risk_score e }] := hr
    rcases List.mem_append.mp hr' with hmem | hmem
    · have := h.2 r hmem
      omega
    · simp only [List.mem_singleton] at hmem
      subst hmem
      show db.nextId < db.nextId + 1
      omega

theorem parse_sentiment_field_map_value (cs : Option CrowdSentiment) :
    parse_sentiment_field (cs.map CrowdSentiment.value) = .ok cs := by
  rcases cs with _ | c
  · rfl
  · simp [parse_sentiment_field, CrowdSentiment.value_ne_empty c, crowdSentiment_fromValue_value]

theorem pyOrStr_some_empty (s : String) : pyOrStr (some s) "" = s := by
  show (if s = "" then "" else s) = s
  split_ifs with h
  · exact h.symm
  · rfl

theorem pyOrRat_some_zero (q : ℚ) : pyOrRat (some q) 0 = q := by
  show (if q = 0 then 0 else q) = q
  split_ifs with h
  · exact h.symm
  · rfl

/-- Reconstructing the row that `add_entry` inserts yields the inserted
entry, with the assigned id in place. -/
theorem row_to_entry_entry_row (i : Int) (e : CryptoRiskEntry)
    (h : e.report_date.valid = true) :
    row_to_entry (entry_row i e) = .ok { e with entry_id := some i } := by
  unfold row_to_entry entry_row
  simp only [riskLevel_fromValue_value, date_fromisoformat_isoformat e.report_date h,
    parse_sentiment_field_map_value, pyOrStr_some_empty, pyOrRat_some_zero]

/-- C2: after a successful `add` on a well-formed store, `get` on the
returned id yields an entry equal to the argument in every field except
`entry_id` (now the returned, positive id) and `risk_score` (now the score
computed from the argument's fields at insert time). -/
theorem C2_store_round_trip (db : DBState) (e : CryptoRiskEntry)
    (hwf : db.wf) (hdate : e.report_date.valid = true) :
    ∃ db', (add_entry .ok db e).1 = .ok (db', db.nextId)
      ∧ 0 < db.nextId
      ∧ get_entry db' db.nextId =
          .ok (some { e with entry_id := some db.nextId,
                             risk_score := calculate_risk_score e }) := by
  refine ⟨⟨db.rows ++ [entry_row db.nextId { e with risk_score := calculate_risk_score e }],
    db.nextId + 1⟩, rfl, hwf.1, ?_⟩
  unfold get_entry
  have hnone : db.rows.find? (fun r => r.entry_id == db.nextId) = none := by
    rw [List.find?_eq_none]
    intro r hr
    have := hwf.2 r hr
    simp only [beq_iff_eq]
    omega
  rw [List.find?_append, hnone, Option.none_or]
  rw [List.find?_cons_of_pos _ (by simp [entry_row])]
  have hrow := row_to_entry_entry_row db.nextId
    { e with risk_score := calculate_risk_score e } hdate
  simp only [hrow]

/-- The concrete entry used to witness C2, mirroring the repository's own
`test_add_and_retrieve_entry` fixture. -/
def c2WitnessEntry : CryptoRiskEntry :=
  { cryptocurrency := "Bitcoin", risk_level := RiskLevel.MEDIUM, reporter := "Test User",
    report_date := ⟨2024, 6, 1⟩, volatility_index := 10 }

theorem C2_store_round_trip_witness :
    ∃ db', (add_entry .ok emptyDB c2WitnessEntry).1 = .ok (db', emptyDB.nextId)
      ∧ 0 < emptyDB.nextId
      ∧ get_entry db' emptyDB.nextId =
          .ok (some { c2WitnessEntry with
                      entry_id := some emptyDB.nextId,
                      risk_score := calculate_risk_score c2WitnessEntry }) :=
  C2_store_round_trip emptyDB c2WitnessEntry emptyDB_wf (by decide)

/-- Stable insertion into a list sorted by `report_date` descending: the
new row goes after every row whose date is at least its own, so rows with
equal dates keep their original relative order. -/
def insert_row_desc (r : Row) : List Row → List Row
  | [] => [r]
  | x :: xs =>
    if r.report_date ≤ x.report_date then x :: insert_row_desc r xs
    else r :: x :: xs

/-- The `ORDER BY report_date DESC` ordering over the stored rows: a stable descending
sort on the ISO date strings, which compare like the dates themselves. -/
def sort_rows_by_date_desc (rows : List Row) : List Row :=
  rows.foldl (fun acc r => insert_row_desc r acc) []

/-- The row-by-row reconstruction in the listing operations' list
comprehension: the first corrupt row aborts the whole listing with its
error. -/
def rows_to_entries : List Row → Except PyError (List CryptoRiskEntry)
  | [] => .ok []
  | r :: rs =>
    match row_to_entry r with
    | .error err => .error err
    | .ok e =>
      match rows_to_entries rs with
      | .error err => .error err
      | .ok es => .ok (e :: es)

/-- Model of `Database.get_all_entries` from database.py. -/
def get_all_entries (db : DBState) : Except PyError (List CryptoRiskEntry) :=
  rows_to_entries (sort_rows_by_date_desc db.rows)

/-- Model of `Database.get_entries_by_crypto` from database.py: exact-match filter
on the `cryptocurrency` column, same ordering as `get_all_entries`. -/
def get_entries_by_crypto (db : DBState) (cryptocurrency : String) :
    Except PyError (List CryptoRiskEntry) :=
  rows_to_entries (sort_rows_by_date_desc
    (db.rows.filter (fun r => r.cryptocurrency == cryptocurrency)))

theorem mem_insert_row_desc (r x : Row) (l : List Row) (h : x = r ∨ x ∈ l) :
    x ∈ insert_row_desc r l := by
  induction l with
  | nil =>
    rcases h with h | h
    · simp [insert_row_desc, h]
    · cases h
  | cons y ys ih =>
    unfold insert_row_desc
    split_ifs
    · rcases h with h | h
      · exact List.mem_cons_of_mem y (ih (Or.inl h))
      · rcases List.mem_cons.mp h with h | h
        · exact h ▸ List.mem_cons_self y _
        · exact List.mem_cons_of_mem y (ih (Or.inr h))
    · rcases h with h | h
      · exact h ▸ List.mem_cons_self x _
      · exact List.mem_cons_of_mem r h

theorem mem_sort_rows_by_date_desc (rows : List Row) (x : Row) (h : x ∈ rows) :
    x ∈ sort_rows_by_date_desc rows := by
  unfold sort_rows_by_date_desc
  suffices H : ∀ acc : List Row, x ∈ acc ∨ x ∈ rows →
      x ∈ rows.foldl (fun acc r => insert_row_desc r acc) acc from
    H [] (Or.inr h)
  clear h
  induction rows with
  | nil =>
    intro acc hacc
    rcases hacc with hacc | hacc
    · exact hacc
    · cases hacc
  | cons y ys ih =>
    intro acc hacc
    simp only [List.foldl_cons]
    refine ih _ ?_
    rcases hacc with hacc | hacc
    · exact Or.inl (mem_insert_row_desc y x acc (Or.inr hacc))
    · rcases List.mem_cons.mp hacc with hxy | hxy
      · exact Or.inl (mem_insert_row_desc y x acc (Or.inl hxy))
      · exact Or.inr hxy

/-- Every failure of the sentiment lookup is a `ValueError`. -/
theorem parse_sentiment_field_error (v : Option String) (err : PyError)
    (h : parse_sentiment_field v = .error err) : ∃ msg, err = .valueError msg := by
  rcases v with _ | s
  · simp [parse_sentiment_field] at h
  · simp only [parse_sentiment_field] at h
    split_ifs at h
    rcases hcs : CrowdSentiment.fromValue s with _ | c <;> rw [hcs] at h
    · exact ⟨_, (Except.error.inj h).symm⟩
    · simp at h

/-- Reconstructing a row whose `risk_level` text is outside the closed set
fails with the enum constructor's `ValueError`. -/
theorem row_to_entry_bad_level (r : Row) (h : RiskLevel.fromValue r.risk_level = none) :
    row_to_entry r = .error (.valueError (r.risk_level ++ " is not a valid RiskLevel")) := by
  simp [row_to_entry, h]

/-- Every failure of row reconstruction is a `ValueError`. -/
theorem row_to_entry_error_pyvalue (r : Row) (err : PyError)
    (h : row_to_entry r = .error err) : ∃ msg, err = .valueError msg := by
  unfold row_to_entry at h
  rcases hrl : RiskLevel.fromValue r.risk_level with _ | rl <;> rw [hrl] at h
  · exact ⟨_, (Except.error.inj h).symm⟩
  · rcases hdp : date_fromisoformat r.report_date with derr | rd <;> rw [hdp] at h
    · obtain ⟨msg, hmsg⟩ := date_fromisoformat_error _ _ hdp
      exact ⟨msg, (Except.error.inj h) ▸ hmsg⟩
    · rcases hsp : parse_sentiment_field r.crowd_sentiment with serr | cs <;> rw [hsp] at h
      · obtain ⟨msg, hmsg⟩ := parse_sentiment_field_error _ _ hsp
        exact ⟨msg, (Except.error.inj h) ▸ hmsg⟩
      · simp at h

/-- A corrupt row anywhere in a listed collection aborts the whole listing
with a `ValueError`. -/
theorem rows_to_entries_error (l : List Row) (r : Row) (hr : r ∈ l)
    (hbad : ∀ e, row_to_entry r ≠ .ok e) :
    ∃ msg, rows_to_entries l = .error (.valueError msg) := by
  induction l with
  | nil => cases hr
  | cons x xs ih =>
    rcases hx : row_to_entry x with xerr | e
    · obtain ⟨msg, hmsg⟩ := row_to_entry_error_pyvalue x xerr hx
      exact ⟨msg, by simp [rows_to_entries, hx, hmsg]⟩
    · rcases List.mem_cons.mp hr with hrx | hrx
      · exact absurd hx (hrx ▸ hbad e)
      · obtain ⟨msg, hmsg⟩ := ih hrx
        exact ⟨msg, by simp [rows_to_entries, hx, hmsg]⟩

/-- A persisted row holds an enumeration value outside the closed set in a
position the reconstruction actually rejects: a `risk_level` text outside
the closed set, or a non-empty `crowd_sentiment` text outside the closed
set. -/
def Row.corruptEnum (r : Row) : Prop :=
  RiskLevel.fromValue r.risk_level = none ∨
  ∃ s, r.crowd_sentiment = some s ∧ s ≠ "" ∧ CrowdSentiment.fromValue s = none

/-- Reconstruction of a row with a corrupt enumeration value always fails
with a `ValueError`, whichever of the two columns is corrupt. -/
theorem row_to_entry_corrupt_error (r : Row) (h : r.corruptEnum) :
    ∃ msg, row_to_entry r = .error (.valueError msg) := by
  rcases h with h | ⟨s, h1, h2, h3⟩
  · exact ⟨r.risk_level ++ " is not a valid RiskLevel", row_to_entry_bad_level r h⟩
  · rcases hrl : RiskLevel.fromValue r.risk_level with _ | rl
    · exact ⟨r.risk_level ++ " is not a valid RiskLevel", row_to_entry_bad_level r hrl⟩
    · rcases hdp : date_fromisoformat r.report_date with err | rd
      · obtain ⟨msg, hmsg⟩ := date_fromisoformat_error _ _ hdp
        exact ⟨msg, by simp [row_to_entry, hrl, hdp, hmsg]⟩
      · exact ⟨s ++ " is not a valid CrowdSentiment",
          by simp [row_to_entry, hrl, hdp, parse_sentiment_field, h1, h2, h3]⟩

/-- C6 (amended): row reconstruction — and therefore `get_entry`,
`get_all_entries`, and `get_entries_by_crypto` over such a row — fails
with a `ValueError` (the repository defines no `CorruptDataError`) when
the stored `risk_level` text is outside the closed set, or when the
stored `crowd_sentiment` text is a non-empty string outside the closed
set; a stored empty-string sentiment, although outside the closed set, is
silently coerced to an absent sentiment instead of failing. -/
theorem C6_corrupt_row_surfaced (r : Row) :
    (RiskLevel.fromValue r.risk_level = none →
      ∃ msg, row_to_entry r = .error (.valueError msg))
    ∧ (∀ s, r.crowd_sentiment = some s → s ≠ "" → CrowdSentiment.fromValue s = none →
        ∃ msg, row_to_entry r = .error (.valueError msg))
    ∧ (∀ db : DBState, ∀ i : Int,
        db.rows.find? (fun row => row.entry_id == i) = some r →
        r.corruptEnum →
        ∃ msg, get_entry db i = .error (.valueError msg))
    ∧ (∀ db : DBState, r ∈ db.rows → r.corruptEnum →
        ∃ msg, get_all_entries db = .error (.valueError msg))
    ∧ (∀ db : DBState, ∀ name : String, r ∈ db.rows → r.cryptocurrency = name →
        r.corruptEnum →
        ∃ msg, get_entries_by_crypto db name = .error (.valueError msg)) := by
  have hbad : r.corruptEnum → ∀ e, row_to_entry r ≠ .ok e := by
    intro h e hok
    obtain ⟨msg, hmsg⟩ := row_to_entry_corrupt_error r h
    rw [hmsg] at hok
    cases hok
  refine ⟨?_, ?_, ?_, ?_, ?_⟩
  · intro h
    exact row_to_entry_corrupt_error r (Or.inl h)
  · intro s h1 h2 h3
    exact row_to_entry_corrupt_error r (Or.inr ⟨s, h1, h2, h3⟩)
  · intro db i hfind h
    obtain ⟨msg, hmsg⟩ := row_to_entry_corrupt_error r h
    exact ⟨msg, by simp [get_entry, hfind, hmsg]⟩
  · intro db hmem h
    obtain ⟨msg, hmsg⟩ := rows_to_entries_error (sort_rows_by_date_desc db.rows) r
      (mem_sort_rows_by_date_desc db.rows r hmem) (hbad h)
    exact ⟨msg, by simp [get_all_entries, hmsg]⟩
  · intro db name hmem hname h
    obtain ⟨msg, hmsg⟩ := rows_to_entries_error
      (sort_rows_by_date_desc (db.rows.filter (fun row => row.cryptocurrency == name))) r
      (mem_sort_rows_by_date_desc _ r (List.mem_filter.mpr ⟨hmem, by simp [hname]⟩))
      (hbad h)
    exact ⟨msg, by simp [get_entries_by_crypto, hmsg]⟩

/-- A row whose `risk_level` column holds text outside the closed set. -/
def corruptLevelRow : Row :=
  { entry_id := 1, cryptocurrency := "Bitcoin", risk_level := "severe",
    reporter := "r", report_date := "2024-01-01", description := none, market_cap := none,
    volatility_index := none, crowd_sentiment := none, risk_score := none }

theorem C6_corrupt_row_surfaced_witness :
    ∃ msg, row_to_entry corruptLevelRow = .error (.valueError msg) :=
  (C6_corrupt_row_surfaced corruptLevelRow).1 rfl

/-- A persisted row whose `crowd_sentiment` column holds the empty string —
a value outside the closed enumeration set — on which C6 as stated
requires reconstruction to fail: it succeeds instead, silently coercing
the corrupt value to an absent sentiment. -/
theorem C6_counterexample_empty_sentiment_coerced :
    row_to_entry
        { entry_id := 1, cryptocurrency := "Bitcoin", risk_level := "low",
          reporter := "r", report_date := "2024-01-01", description := none, market_cap := none,
          volatility_index := none, crowd_sentiment := some "", risk_score := none } =
      .ok { cryptocurrency := "Bitcoin", risk_level := RiskLevel.LOW, reporter := "r",
            report_date := ⟨2024, 1, 1⟩, entry_id := some 1 } := by
  rfl

/-- C8 (amended): whichever way `add` fails — the medium unreachable at
`sqlite3.connect`, or the write unable to be committed inside the `with`
block, which the connection context manager rolls back — the failure
surfaces as the medium's own `OperationalError` (the repository defines
no `StorageError`) and no row or partial row becomes visible, but the
caller's entry is not left unchanged: its `risk_score` field is
overwritten with the newly computed score before the connection is even
attempted. -/
theorem C8_failed_add_no_row_but_entry_mutated (db : DBState) (e : CryptoRiskEntry)
    (fault : StorageFault) (hf : fault ≠ .ok) :
    (∃ msg, (add_entry fault db e).1 = .error (.operationalError msg))
    ∧ (add_entry fault db e).2 = { e with risk_score := calculate_risk_score e } := by
  cases fault
  · exact absurd rfl hf
  · exact ⟨⟨"unable to open database file", rfl⟩, rfl⟩
  · exact ⟨⟨"disk I/O error", rfl⟩, rfl⟩

/-- The entry used in the C8 and C9 counterexamples: default (zero) score,
MEDIUM risk, so the computed score 45 differs from the stored 0. -/
def failDemoEntry : CryptoRiskEntry :=
  { cryptocurrency := "Bitcoin", risk_level := RiskLevel.MEDIUM, reporter := "r",
    report_date := ⟨2024, 1, 1⟩ }

theorem C8_failed_add_no_row_but_entry_mutated_witness :
    (∃ msg, (add_entry .commitFail emptyDB failDemoEntry).1 =
        .error (.operationalError msg))
    ∧ (add_entry .commitFail emptyDB failDemoEntry).2 =
        { failDemoEntry with risk_score := calculate_risk_score failDemoEntry } :=
  C8_failed_add_no_row_but_entry_mutated emptyDB failDemoEntry .commitFail (by decide)

/-- A failing `add` does not leave the caller's entry unchanged: its
`risk_score` (0 before the call) has been overwritten with the computed
score 45, refuting C8 as stated. -/
theorem C8_counterexample_entry_mutated_on_failure :
    (add_entry .connectFail emptyDB failDemoEntry).2 ≠ failDemoEntry := by
  intro hEq
  have hscore : (add_entry .connectFail emptyDB failDemoEntry).2.risk_score = 45 := by
    show calculate_risk_score failDemoEntry = 45
    rw [calculate_risk_score_spec_form]
    norm_num [failDemoEntry, spec_base_score, spec_sentiment_contribution, pyRound2,
      roundHalfEven, min_def, max_def]
  rw [hEq] at hscore
  norm_num [failDemoEntry] at hscore

/-- C9 (amended): a successful `add` writes the computed risk score onto
the caller's in-memory entry and returns the assigned id, but it does not
write the id back: the entry's `entry_id` field keeps its prior value. -/
theorem C9_add_side_effect_score_only (db : DBState) (e : CryptoRiskEntry) :
    (add_entry .ok db e).2 = { e with risk_score := calculate_risk_score e }
    ∧ (add_entry .ok db e).2.entry_id = e.entry_id
    ∧ (∃ db', (add_entry .ok db e).1 = .ok (db', db.nextId)) :=
  ⟨rfl, rfl, ⟨_, rfl⟩⟩

/-- After a successful `add` on a fresh store the returned id is 1, yet the
caller's entry still has no identity: `entry_id` is never assigned,
refuting C9 as stated. -/
theorem C9_counterexample_entry_id_not_written :
    ((add_entry .ok emptyDB failDemoEntry).1.toOption.map Prod.snd = some 1)
    ∧ (add_entry .ok emptyDB failDemoEntry).2.entry_id = none := by
  exact ⟨rfl, rfl⟩

/-- A JSON value: the abstract syntax `json.dump` serializes.  The
export-related theorems are stated at this level, so "parsing the output"
is reading the array structure back. -/
inductive Json where
  | null
  | num (q : ℚ)
  | str (s : String)
  | arr (elems : List Json)
  | obj (fields : List (String × Json))

/-- Key lookup in a JSON object (what a consumer parsing the export reads
from one element). -/
def Json.getField (j : Json) (key : String) : Option Json :=
  match j with
  | .obj fields => (fields.find? (fun kv => kv.1 == key)).map Prod.snd
  | _ => none

/-- The JSON object `json.dump` receives for one exported entry: the
`to_dict` key-value pairs in their insertion order, with Python `None`
becoming `null`. -/
def entry_json (e : CryptoRiskEntry) : Json :=
  .obj [("entry_id", match e.entry_id with | some i => Json.num (i : ℚ) | none => Json.null),
        ("cryptocurrency", .str e.cryptocurrency),
        ("risk_level", .str e.risk_level.value),
        ("reporter", .str e.reporter),
        ("report_date", .str e.report_date.isoformat),
        ("description", .str e.description),
        ("market_cap", .num e.market_cap),
        ("volatility_index", .num e.volatility_index),
        ("crowd_sentiment", match e.crowd_sentiment with
          | some c => Json.str c.value
          | none => Json.null),
        ("risk_score", .num e.risk_score)]

/-- A file operation the export performs on the filesystem. -/
inductive FileOp where
  | openTruncate (path : String)
  | writeJson (path : String) (j : Json)

/-- What the destination file can hold at some instant: its pre-existing
text, nothing (just truncated), a partially written serialization, or the
complete serialization. -/
inductive FileContent where
  | text (s : String)
  | truncated
  | halfWritten (j : Json)
  | complete (j : Json)

/-- Destination contents after one fully applied file operation. -/
def applyOp (dst : String) (c : FileContent) : FileOp → FileContent
  | .openTruncate p => if p = dst then .truncated else c
  | .writeJson p j => if p = dst then .complete j else c

/-- Destination contents a crash during one operation can leave behind:
truncation is instantaneous once it happens; a serialization write can be
interrupted anywhere. -/
def midOpStates (dst : String) (c : FileContent) : FileOp → List FileContent
  | .openTruncate p => if p = dst then [c, .truncated] else [c]
  | .writeJson p j => if p = dst then [c, .halfWritten j, .complete j] else [c]

/-- All destination contents reachable if the process stops at any point
while performing the operations in order. -/
def crash_states (dst : String) (c : FileContent) : List FileOp → List FileContent
  | [] => [c]
  | op :: ops => midOpStates dst c op ++ crash_states dst (applyOp dst c op) ops

/-- Model of `Database.export_to_json` from database.py: list all entries, convert
each via `to_dict`, and write the JSON array to `filepath` with a plain
truncating `open(filepath, "w")` — no temp file, no rename.  Returns the
serialized array (as its JSON value) together with the file operations
performed. -/
def export_to_json (db : DBState) (filepath : String) :
    Except PyError (Json × List FileOp) :=
  match get_all_entries db with
  | .error err => .error err
  | .ok entries =>
    .ok (Json.arr (entries.map entry_json),
         [.openTruncate filepath, .writeJson filepath (Json.arr (entries.map entry_json))])

/-- C7 (amended): `export_to_json` serializes the listed entries (each via
`to_dict`) as a JSON array with exactly one element per entry, each
element's `report_date` being the source entry's ISO date string — but the
write is an in-place truncating write rather than an atomic
temp-file-plus-rename, so stopping mid-export can leave the destination
truncated or half-written. -/
theorem C7_export_shape_but_not_atomic (db : DBState) (fp : String)
    (entries : List CryptoRiskEntry) (h : get_all_entries db = .ok entries) :
    export_to_json db fp =
      .ok (Json.arr (entries.map entry_json),
           [.openTruncate fp, .writeJson fp (Json.arr (entries.map entry_json))])
    ∧ (entries.map entry_json).length = entries.length
    ∧ (∀ e ∈ entries, Json.getField (entry_json e) "report_date" =
        some (.str e.report_date.isoformat))
    ∧ (∀ old : FileContent, FileContent.truncated ∈
        crash_states fp old
          [.openTruncate fp, .writeJson fp (Json.arr (entries.map entry_json))]) := by
  refine ⟨by simp [export_to_json, h], List.length_map _ _, ?_, ?_⟩
  · intro e _
    rfl
  · intro old
    simp [crash_states, midOpStates, applyOp]

theorem C7_export_shape_witness :
    export_to_json emptyDB "out.json" =
      .ok (Json.arr [], [.openTruncate "out.json", .writeJson "out.json" (Json.arr [])]) :=
  (C7_export_shape_but_not_atomic emptyDB "out.json" [] rfl).1

/-- Stopping the export right after its truncating `open` leaves the
destination holding neither the previous content nor a complete
serialization: the crash-state set of the concrete export on a fresh store
contains the truncated file, refuting the atomicity C7 states. -/
theorem C7_counterexample_truncating_write :
    (export_to_json emptyDB "out.json").toOption.map Prod.snd =
      some [.openTruncate "out.json", .writeJson "out.json" (Json.arr [])]
    ∧ FileContent.truncated ∈
        crash_states "out.json" (.text "previous")
          [.openTruncate "out.json", .writeJson "out.json" (Json.arr [])]
    ∧ FileContent.truncated ≠ .text "previous"
    ∧ FileContent.truncated ≠ .complete (Json.arr []) := by
  refine ⟨rfl, ?_, by simp, by simp⟩
  simp [crash_states, midOpStates, applyOp]

end CryptoCrowdRisk
